import Mathlib

/-!
Shallow embedding of `src/omsFlowPriceUpdate.js` (Salesforce LWC component
`OmsFlowPriceUpdate`): a bidirectional price/margin reconciliation engine with
debounced edits and a batched save.

Modelling conventions:
* JavaScript numbers are modelled exactly: finite values as rationals plus the
  special values `NaN`, `+Infinity`, `-Infinity` (`JsNum`).  Negative zero is
  not modelled; division by the rational `0` behaves as JS division by `+0`.
* Arbitrary JS values (a field of fetched data may be a string, `undefined`,
  etc.) are modelled by `JsVal`: either a number or a value of non-number
  type (for which JS `typeof v !== 'number'` holds and `ToNumber` is modelled
  as `NaN`, matching `undefined`).
* The component instance is `ComponentState`; `setTimeout`/`clearTimeout` on
  the two single-slot timer fields `updatePriceTimeout`/`updateMarginTimeout`
  are modelled by an `Option PendingEdit` slot per field: scheduling replaces
  the slot, firing consumes it (a fired JS timer handle is dead, and
  `clearTimeout` on a dead handle is a no-op, so clearing the slot on fire is
  behaviourally equivalent to the stale handle the code leaves behind).
  A ghost `commitLog` records each timer callback that actually ran, so that
  "exactly one commit" is expressible.
* `event.target.value` reaches state only through `parseFloat`; edit events
  therefore carry the parsed `JsNum` directly (`NaN` represents unparseable
  input).
-/

/-- A JavaScript number: a finite (exact) value, `NaN`, or an infinity. -/
inductive JsNum where
  | fin (q : ℚ)
  | nan
  | posInf
  | negInf
deriving DecidableEq, Repr

/-- JS `Number.isFinite` on a `JsNum`. -/
def JsNum.isFinite : JsNum → Bool
  | .fin _ => true
  | _ => false

/-- JS subtraction on numbers (`NaN` propagates, `Infinity - Infinity = NaN`). -/
def jsub : JsNum → JsNum → JsNum
  | .fin a, .fin b => .fin (a - b)
  | .nan, _ => .nan
  | _, .nan => .nan
  | .posInf, .posInf => .nan
  | .negInf, .negInf => .nan
  | .posInf, _ => .posInf
  | .negInf, _ => .negInf
  | .fin _, .posInf => .negInf
  | .fin _, .negInf => .posInf

/-- JS multiplication on numbers (`NaN` propagates, `Infinity * 0 = NaN`). -/
def jmul : JsNum → JsNum → JsNum
  | .fin a, .fin b => .fin (a * b)
  | .nan, _ => .nan
  | _, .nan => .nan
  | .posInf, .posInf => .posInf
  | .posInf, .negInf => .negInf
  | .negInf, .posInf => .negInf
  | .negInf, .negInf => .posInf
  | .posInf, .fin b => if b = 0 then .nan else if 0 < b then .posInf else .negInf
  | .fin a, .posInf => if a = 0 then .nan else if 0 < a then .posInf else .negInf
  | .negInf, .fin b => if b = 0 then .nan else if 0 < b then .negInf else .posInf
  | .fin a, .negInf => if a = 0 then .nan else if 0 < a then .negInf else .posInf

/-- JS division on numbers: a nonzero finite value divided by `0` is a signed
infinity, `0 / 0 = NaN`, `Infinity / Infinity = NaN`, finite over infinite is
`0`, `NaN` propagates. -/
def jdiv : JsNum → JsNum → JsNum
  | .fin a, .fin b =>
      if b = 0 then (if a = 0 then .nan else if 0 < a then .posInf else .negInf)
      else .fin (a / b)
  | .nan, _ => .nan
  | _, .nan => .nan
  | .posInf, .posInf => .nan
  | .posInf, .negInf => .nan
  | .negInf, .posInf => .nan
  | .negInf, .negInf => .nan
  | .posInf, .fin b => if 0 ≤ b then .posInf else .negInf
  | .negInf, .fin b => if 0 ≤ b then .negInf else .posInf
  | .fin _, .posInf => .fin 0
  | .fin _, .negInf => .fin 0

/-- Modelled from the spec: `roundNum` is imported from `c/helper`, whose source
is not in the repository.  The spec describes it as rounding to the given
number of decimal places (`round(x, 2 decimal places)`); it is modelled as
`Math.round`-style half-up rounding scaled by `10 ^ d`, propagating `NaN` and
the infinities exactly as `Math.round` does. -/
def roundNum (x : JsNum) (d : Nat) : JsNum :=
  match x with
  | .fin q => .fin (((⌊q * (10 : ℚ) ^ d + 1 / 2⌋ : ℤ) : ℚ) / (10 : ℚ) ^ d)
  | y => y

/-- A JavaScript value as far as the component observes it: a number, or a
value of non-number type (string, `undefined`, ...). -/
inductive JsVal where
  | num (n : JsNum)
  | nonNum
deriving DecidableEq, Repr

/-- The JS `typeof v === 'number'` test (`NaN` and the infinities pass it). -/
def JsVal.isNumberType : JsVal → Bool
  | .num _ => true
  | .nonNum => false

/-- JS `ToNumber` coercion as used by the arithmetic operators; a non-number
value coerces to `NaN` (matching `undefined`). -/
def JsVal.toNumber : JsVal → JsNum
  | .num n => n
  | .nonNum => .nan

/-- The JS strict comparison `v === 0` (`NaN === 0` and `Infinity === 0` are
both false). -/
def JsVal.strictEqZero : JsVal → Bool
  | .num (.fin q) => q == 0
  | _ => false

/-- `calculateMargin(revenue, cost)` (src/omsFlowPriceUpdate.js lines 49-58):
returns `0` when `typeof revenue !== 'number'`, `typeof cost !== 'number'`, or
`revenue === 0`; otherwise `roundNum(((revenue - cost) / revenue) * 100, 2)`. -/
def calculateMargin (revenue cost : JsVal) : JsNum :=
  if !revenue.isNumberType || !cost.isNumberType || revenue.strictEqZero then .fin 0
  else roundNum (jmul (jdiv (jsub revenue.toNumber cost.toNumber) revenue.toNumber) (.fin 100)) 2

/-- The price-from-margin computation inlined in `updateMargin`
(src/omsFlowPriceUpdate.js lines 102-104): `newMargin = value / 100`, then
`roundNum(cost / (1 - newMargin), 2)`, where `cost` is coerced by division. -/
def priceFromMargin (value : JsNum) (cost : JsVal) : JsNum :=
  roundNum (jdiv cost.toNumber (jsub (.fin 1) (jdiv value (.fin 100)))) 2

/-- The `Product2` sub-record of a fetched cart item, with the two fields the
component reads. -/
structure RawProduct2 where
  Product_Cost__c : JsVal
  Agency_Pricing__c : Bool
deriving DecidableEq, Repr

/-- A raw cart item as supplied by the `getCartItems` wire adapter. -/
structure RawItem where
  Id : String
  SalesPrice : JsVal
  Product2 : RawProduct2
deriving DecidableEq, Repr

/-- A mapped cart item held in `this.cartItems`: the raw item (object spread)
plus the derived `margin` and `readonly` fields added in `wiredCart`. -/
structure CartItem where
  Id : String
  SalesPrice : JsVal
  Product2 : RawProduct2
  margin : JsNum
  readonly : Bool
deriving DecidableEq, Repr

/-- The mapping applied to each raw item in `wiredCart`
(src/omsFlowPriceUpdate.js lines 31-39): spread the item, add
`margin = calculateMargin(SalesPrice, Product2.Product_Cost__c)` and
`readonly = Product2.Agency_Pricing__c`. -/
def mapCartItem (item : RawItem) : CartItem :=
  { Id := item.Id
    SalesPrice := item.SalesPrice
    Product2 := item.Product2
    margin := calculateMargin item.SalesPrice item.Product2.Product_Cost__c
    readonly := item.Product2.Agency_Pricing__c }

/-- A pending debounced edit: the `id` and raw value captured by the
`setTimeout` closure. -/
structure PendingEdit where
  id : String
  value : JsNum
deriving DecidableEq, Repr

/-- Which of the two timer slots a commit came from. -/
inductive EditField where
  | price
  | marginField
deriving DecidableEq, Repr

/-- Ghost record of one timer callback that ran (one committed edit). -/
structure CommitRecord where
  field : EditField
  id : String
  value : JsNum
deriving DecidableEq, Repr

/-- The component instance state.  `commitLog` is ghost instrumentation: the
list of timer callbacks that actually executed, in order. -/
structure ComponentState where
  cartItems : List CartItem
  errorMsg : Option String
  updatePriceTimeout : Option PendingEdit
  updateMarginTimeout : Option PendingEdit
  commitLog : List CommitRecord
deriving DecidableEq, Repr

/-- The freshly constructed component: `cartItems = []`, every other field
`undefined`. -/
def initialState : ComponentState :=
  { cartItems := []
    errorMsg := none
    updatePriceTimeout := none
    updateMarginTimeout := none
    commitLog := [] }

/-- The result emitted by the `getCartItems` wire adapter: `{data, error}`,
each possibly absent. -/
structure WireResult where
  data : Option (List RawItem)
  error : Option String
deriving DecidableEq, Repr

/-- `wiredCart(result)` (src/omsFlowPriceUpdate.js lines 26-46): on the data
branch, map the items and clear `errorMsg`; on the error branch, record the
error (the collection is not touched); when neither is present, do nothing. -/
def wiredCart (s : ComponentState) (result : WireResult) : ComponentState :=
  match result.data with
  | some data => { s with cartItems := data.map mapCartItem, errorMsg := none }
  | none =>
    match result.error with
    | some e => { s with errorMsg := some e }
    | none => s

/-- Replace the first item whose `Id` matches (the effect of
`this.cartItems.find(...)` followed by in-place mutation and
`this.cartItems = [...this.cartItems]`); when no item matches, the list is
unchanged. -/
def updateFirst (p : CartItem → Bool) (f : CartItem → CartItem) :
    List CartItem → List CartItem
  | [] => []
  | x :: xs => if p x then f x :: xs else x :: updateFirst p f xs

/-- The body of the `updatePrice` timeout (src/omsFlowPriceUpdate.js lines
74-79): set `SalesPrice = parseFloat(value)` and recompute `margin` from the
new price and `Product2.Product_Cost__c`. -/
def priceCommitItem (value : JsNum) (it : CartItem) : CartItem :=
  { it with
      SalesPrice := .num value
      margin := calculateMargin (.num value) it.Product2.Product_Cost__c }

/-- The body of the `updateMargin` timeout (src/omsFlowPriceUpdate.js lines
100-106): set `SalesPrice = roundNum(cost / (1 - parseFloat(value)/100), 2)`
and store `margin = parseFloat(value)` as entered. -/
def marginCommitItem (value : JsNum) (it : CartItem) : CartItem :=
  { it with
      SalesPrice := .num (priceFromMargin value it.Product2.Product_Cost__c)
      margin := value }

/-- Apply a pending price edit to the collection (no-op when the id is not
found, matching the `else` warn branch). -/
def commitPriceItems (items : List CartItem) (id : String) (value : JsNum) :
    List CartItem :=
  updateFirst (fun it => it.Id == id) (priceCommitItem value) items

/-- Apply a pending margin edit to the collection (no-op when the id is not
found). -/
def commitMarginItems (items : List CartItem) (id : String) (value : JsNum) :
    List CartItem :=
  updateFirst (fun it => it.Id == id) (marginCommitItem value) items

/-- `updatePrice(event)` (src/omsFlowPriceUpdate.js lines 61-84): clear the
single `updatePriceTimeout` slot (whatever id it was scheduled for) and
schedule this edit in it.  No lock/readonly check is performed. -/
def updatePrice (s : ComponentState) (id : String) (value : JsNum) :
    ComponentState :=
  { s with updatePriceTimeout := some { id := id, value := value } }

/-- `updateMargin(event)` (src/omsFlowPriceUpdate.js lines 87-112): clear the
single `updateMarginTimeout` slot and schedule this edit in it. -/
def updateMargin (s : ComponentState) (id : String) (value : JsNum) :
    ComponentState :=
  { s with updateMarginTimeout := some { id := id, value := value } }

/-- Expiry of the price debounce timer: run the pending `updatePrice`
callback, if one is scheduled, and consume the slot. -/
def firePriceTimeout (s : ComponentState) : ComponentState :=
  match s.updatePriceTimeout with
  | none => s
  | some pe =>
    { s with
        cartItems := commitPriceItems s.cartItems pe.id pe.value
        updatePriceTimeout := none
        commitLog := s.commitLog ++ [⟨.price, pe.id, pe.value⟩] }

/-- Expiry of the margin debounce timer: run the pending `updateMargin`
callback, if one is scheduled, and consume the slot. -/
def fireMarginTimeout (s : ComponentState) : ComponentState :=
  match s.updateMarginTimeout with
  | none => s
  | some pe =>
    { s with
        cartItems := commitMarginItems s.cartItems pe.id pe.value
        updateMarginTimeout := none
        commitLog := s.commitLog ++ [⟨.marginField, pe.id, pe.value⟩] }

/-- `refreshCartItems()` (src/omsFlowPriceUpdate.js lines 144-154):
`refreshApex` re-invokes the wire, which re-emits through `wiredCart` with a
fresh result (the parameter).  No timer is cancelled. -/
def refreshCartItems (s : ComponentState) (fresh : WireResult) : ComponentState :=
  wiredCart s fresh

/-- An externally observable event of the component: an edit intake or the
expiry of one of the two debounce timers. -/
inductive Event where
  | priceEdit (id : String) (value : JsNum)
  | marginEdit (id : String) (value : JsNum)
  | firePrice
  | fireMargin
deriving DecidableEq, Repr

/-- One step of the event semantics. -/
def step (s : ComponentState) : Event → ComponentState
  | .priceEdit id v => updatePrice s id v
  | .marginEdit id v => updateMargin s id v
  | .firePrice => firePriceTimeout s
  | .fireMargin => fireMarginTimeout s

/-- Run a sequence of events from a state. -/
def run (s : ComponentState) (events : List Event) : ComponentState :=
  events.foldl step s

/-- A value stored in a write-request field map: the item id is a string, the
price a JS value. -/
inductive FieldVal where
  | strVal (s : String)
  | numVal (v : JsVal)
deriving DecidableEq, Repr

/-- The `fields` object of one write request, as an ordered key/value map
mirroring the object literal. -/
def WriteFields : Type := List (String × FieldVal)

/-- The `fields` object built for one item in `saveChanges`
(src/omsFlowPriceUpdate.js lines 117-122): exactly the keys `Id` and
`SalesPrice`. -/
def buildUpdate (it : CartItem) : WriteFields :=
  [("Id", .strVal it.Id), ("SalesPrice", .numVal it.SalesPrice)]

/-- The full `updates` array of `saveChanges`: one request per cart item. -/
def buildUpdates (items : List CartItem) : List WriteFields :=
  items.map buildUpdate

/-- The error object a rejected `updateRecord` promise carries:
`error.body.message` when a truthy `body` is present, else `error.message`. -/
structure JsError where
  bodyMessage : Option String
  message : String
deriving DecidableEq, Repr

/-- `error.body ? error.body.message : error.message`. -/
def errDetail (e : JsError) : String :=
  match e.bodyMessage with
  | some m => m
  | none => e.message

/-- The settlement of one `updateRecord` promise. -/
inductive WriteResult where
  | resolved
  | rejected (e : JsError)
deriving DecidableEq, Repr

/-- The rejection `Promise.all` settles with: the first rejected promise's
error (promise settlement order is modelled by list order), or `none` when
every promise resolves. -/
def firstRejection : List WriteResult → Option JsError
  | [] => none
  | .resolved :: rest => firstRejection rest
  | .rejected e :: _ => some e

/-- The toast `saveChanges` dispatches at the end. -/
inductive SaveOutcome where
  | success (message : String)
  | failure (message : String)
deriving DecidableEq, Repr

/-- `saveChanges()` (src/omsFlowPriceUpdate.js lines 115-142), given the
settlement of each issued write (positionally, one per item): on the
`Promise.all` success path, show the success toast and rebuild `cartItems`
from shallow copies (`{...item}`, the identity on values); on the failure
path, set `errorMsg` to the first error's detail and show the error toast —
`cartItems` is not touched. -/
def saveChanges (s : ComponentState) (results : List WriteResult) :
    ComponentState × SaveOutcome :=
  match firstRejection results with
  | none =>
    ({ s with cartItems := s.cartItems.map (fun it => it) },
      .success "Changes saved successfully")
  | some e =>
    ({ s with errorMsg := some (errDetail e) }, .failure "Error saving changes")

/-! Concrete fixtures used by the counterexample and witness theorems. -/

/-- A raw fetched item: id `A`, price `10`, cost `4`, not pricing-restricted. -/
def rawItemA : RawItem := ⟨"A", .num (.fin 10), ⟨.num (.fin 4), false⟩⟩

/-- The mapped form of `rawItemA` (margin `60`). -/
def itemA : CartItem := ⟨"A", .num (.fin 10), ⟨.num (.fin 4), false⟩, .fin 60, false⟩

/-- A mapped item: id `B`, price `20`, cost `5`, margin `75`. -/
def itemB : CartItem := ⟨"B", .num (.fin 20), ⟨.num (.fin 5), false⟩, .fin 75, false⟩

/-- A mapped item whose `Agency_Pricing__c` flag is set, so `readonly = true`. -/
def itemLocked : CartItem := ⟨"L", .num (.fin 10), ⟨.num (.fin 4), true⟩, .fin 60, true⟩

/-- A component seeded with `itemA` and `itemB`, no pending timers. -/
def stateAB : ComponentState := ⟨[itemA, itemB], none, none, none, []⟩

/-- A component seeded with the locked item only. -/
def stateLocked : ComponentState := ⟨[itemLocked], none, none, none, []⟩

/-- A wire emission carrying `rawItemA` as data. -/
def freshResultA : WireResult := ⟨some [rawItemA], none⟩

/-! ### C4 — margin function reference definition -/

/-- C4 counterexample: the claim says `margin(NaN, cost) == 0` and
`margin(price, NaN) == 0`, but `typeof NaN === 'number'`, so the guard in
`calculateMargin` does not fire and the arithmetic propagates `NaN`:
`calculateMargin(NaN, 5) = NaN` and `calculateMargin(10, NaN) = NaN`, neither
of which is `0`. -/
theorem calculateMargin_nan_not_zero :
    calculateMargin (.num .nan) (.num (.fin 5)) = .nan ∧
    calculateMargin (.num (.fin 10)) (.num .nan) = .nan ∧
    calculateMargin (.num .nan) (.num (.fin 5)) ≠ .fin 0 ∧
    calculateMargin (.num (.fin 10)) (.num .nan) ≠ .fin 0 := by
  refine ⟨?_, ?_, ?_, ?_⟩ <;>
    norm_num [calculateMargin, roundNum, jsub, jdiv, jmul, JsVal.isNumberType,
      JsVal.toNumber, JsVal.strictEqZero] <;>
    decide

/-- Helper: on finite numeric inputs with nonzero revenue, `calculateMargin`
computes the rounded formula. -/
theorem calculateMargin_fin (p c : ℚ) (hp : p ≠ 0) :
    calculateMargin (.num (.fin p)) (.num (.fin c)) =
      roundNum (.fin ((p - c) / p * 100)) 2 := by
  simp [calculateMargin, JsVal.isNumberType, JsVal.strictEqZero, JsVal.toNumber,
    jsub, jdiv, jmul, hp]

/-- C4 amended: `calculateMargin` returns `0` exactly when an argument is of
non-number type or the revenue is strictly equal to `0`; a `NaN` argument
passes the `typeof` guard and yields `NaN`, not `0`; for finite inputs with
`price ≠ 0` it returns `round(((price - cost) / price) * 100, 2)`. -/
theorem calculateMargin_spec :
    (∀ cost : JsVal, calculateMargin .nonNum cost = .fin 0) ∧
    (∀ revenue : JsVal, calculateMargin revenue .nonNum = .fin 0) ∧
    (∀ cost : JsVal, calculateMargin (.num (.fin 0)) cost = .fin 0) ∧
    (∀ p c : ℚ, p ≠ 0 →
      calculateMargin (.num (.fin p)) (.num (.fin c)) =
        roundNum (.fin ((p - c) / p * 100)) 2) := by
  refine ⟨?_, ?_, ?_, ?_⟩
  · intro cost
    simp [calculateMargin, JsVal.isNumberType]
  · intro revenue
    cases revenue <;> simp [calculateMargin, JsVal.isNumberType]
  · intro cost
    simp [calculateMargin, JsVal.isNumberType, JsVal.strictEqZero]
  · exact calculateMargin_fin

/-- Witness for `calculateMargin_spec` at `p = 10`, `c = 5`. -/
theorem calculateMargin_spec_witness :
    (10 : ℚ) ≠ 0 ∧
    calculateMargin (.num (.fin 10)) (.num (.fin 5)) =
      roundNum (.fin ((10 - 5) / 10 * 100)) 2 :=
  ⟨by norm_num, calculateMargin_spec.2.2.2 10 5 (by norm_num)⟩

/-! ### C10 — price/margin round trip -/

/-- C10 counterexample: at `p = 997`, `c = 1` the margin rounds to `99.9`, and
reconstructing the price gives `1000`, which misses `997` by `3` — far beyond
any 2-decimal rounding tolerance.  The rounding of the margin, not only the
`m == 100` boundary, breaks the round trip. -/
theorem roundtrip_fails_at_997 :
    calculateMargin (.num (.fin 997)) (.num (.fin 1)) = .fin (999 / 10) ∧
    priceFromMargin (.fin (999 / 10)) (.num (.fin 1)) = .fin 1000 ∧
    (1 : ℚ) / 100 < |(1000 : ℚ) - 997| := by
  refine ⟨?_, ?_, by norm_num⟩ <;>
    norm_num [calculateMargin, priceFromMargin, roundNum, jsub, jdiv, jmul,
      JsVal.isNumberType, JsVal.toNumber, JsVal.strictEqZero]

/-- C10 amended: the round trip is exact when the margin value needs no
rounding (and the price is itself a 2-decimal value, with `c ≠ 0` keeping the
computation away from the 100%-margin division by zero); with rounding, the
reconstructed price can differ from `p` by far more than the 2-decimal
tolerance, as `roundtrip_fails_at_997` shows. -/
theorem roundtrip_exact_when_margin_exact :
    ∀ p c : ℚ, p ≠ 0 → c ≠ 0 →
      roundNum (.fin ((p - c) / p * 100)) 2 = .fin ((p - c) / p * 100) →
      roundNum (.fin p) 2 = .fin p →
      priceFromMargin (calculateMargin (.num (.fin p)) (.num (.fin c)))
        (.num (.fin c)) = .fin p := by
  intro p c hp hc hm hpr
  have hmargin : calculateMargin (.num (.fin p)) (.num (.fin c)) =
      .fin ((p - c) / p * 100) := by
    rw [calculateMargin_fin p c hp, hm]
  rw [hmargin]
  have h100 : ((p - c) / p * 100) / 100 = (p - c) / p := by
    field_simp
    ring
  have hsub : (1 : ℚ) - (p - c) / p = c / p := by
    field_simp
  have hcp : c / p ≠ 0 := div_ne_zero hc hp
  have hrec : c / (c / p) = p := by
    rw [div_div_eq_mul_div]
    field_simp
  simp only [priceFromMargin, JsVal.toNumber, jdiv, jsub]
  norm_num [h100, hsub, hcp, hrec, hpr]

/-- Witness for `roundtrip_exact_when_margin_exact` at `p = 10`, `c = 5`
(margin `50`, reconstructed price `10`). -/
theorem roundtrip_exact_witness :
    priceFromMargin (calculateMargin (.num (.fin 10)) (.num (.fin 5)))
      (.num (.fin 5)) = .fin 10 :=
  roundtrip_exact_when_margin_exact 10 5 (by norm_num) (by norm_num)
    (by norm_num [roundNum]) (by norm_num [roundNum])

/-! ### C8 — debounce coalescing on one (id, field) pair -/

/-- Helper: running a concatenation of event lists composes. -/
theorem run_append (s : ComponentState) (es fs : List Event) :
    run s (es ++ fs) = run (run s es) fs :=
  List.foldl_append step s es fs

/-- Helper: a burst of price edits to one id leaves exactly the last value in
the single price slot and touches nothing else. -/
theorem run_price_burst (id : String) (vlast : JsNum) :
    ∀ (earlier : List JsNum) (s : ComponentState),
      run s ((earlier ++ [vlast]).map (Event.priceEdit id)) =
        { s with updatePriceTimeout := some ⟨id, vlast⟩ } := by
  intro earlier
  induction earlier with
  | nil => intro s; rfl
  | cons v rest ih =>
    intro s
    have : ((v :: rest) ++ [vlast]).map (Event.priceEdit id) =
        Event.priceEdit id v :: (rest ++ [vlast]).map (Event.priceEdit id) := by
      simp
    rw [this]
    show run (step s (.priceEdit id v)) ((rest ++ [vlast]).map (Event.priceEdit id)) =
      { s with updatePriceTimeout := some ⟨id, vlast⟩ }
    rw [ih]
    simp [step, updatePrice]

/-- Helper: a burst of margin edits to one id leaves exactly the last value in
the single margin slot and touches nothing else. -/
theorem run_margin_burst (id : String) (vlast : JsNum) :
    ∀ (earlier : List JsNum) (s : ComponentState),
      run s ((earlier ++ [vlast]).map (Event.marginEdit id)) =
        { s with updateMarginTimeout := some ⟨id, vlast⟩ } := by
  intro earlier
  induction earlier with
  | nil => intro s; rfl
  | cons v rest ih =>
    intro s
    have : ((v :: rest) ++ [vlast]).map (Event.marginEdit id) =
        Event.marginEdit id v :: (rest ++ [vlast]).map (Event.marginEdit id) := by
      simp
    rw [this]
    show run (step s (.marginEdit id v)) ((rest ++ [vlast]).map (Event.marginEdit id)) =
      { s with updateMarginTimeout := some ⟨id, vlast⟩ }
    rw [ih]
    simp [step, updateMargin]

/-- C8: debounce coalescing.  Any burst of edits to the same (id, field) pair
in which no timer fires in between (each edit lands inside the previous edit's
500 ms quiet period), followed by the expiry of that field's timer, applies
exactly one commit, carrying only the last scheduled value: the ghost
`commitLog` grows by exactly one record with the last value, the collection is
transformed once with that value, and the slot is empty afterwards (so no
further commit of the burst can fire).  This holds for the price field and
the margin field alike. -/
theorem debounce_coalescing (s : ComponentState) (id : String)
    (earlier : List JsNum) (vlast : JsNum) :
    run s ((earlier ++ [vlast]).map (Event.priceEdit id) ++ [Event.firePrice]) =
      { s with
          cartItems := commitPriceItems s.cartItems id vlast
          updatePriceTimeout := none
          commitLog := s.commitLog ++ [⟨.price, id, vlast⟩] } ∧
    run s ((earlier ++ [vlast]).map (Event.marginEdit id) ++ [Event.fireMargin]) =
      { s with
          cartItems := commitMarginItems s.cartItems id vlast
          updateMarginTimeout := none
          commitLog := s.commitLog ++ [⟨.marginField, id, vlast⟩] } := by
  constructor
  · rw [run_append, run_price_burst id vlast earlier s]
    rfl
  · rw [run_append, run_margin_burst id vlast earlier s]
    rfl

/-! ### C1 — debounce independence across (id, field) pairs -/

/-- C1 counterexample: the component keeps ONE price timer slot for the whole
collection, not one per id.  Scheduling a price edit for item `B` cancels the
pending price edit for item `A` — a distinct (id, field) pair: after all price
timers fire, `A` still has its original price `10`, and exactly one commit
(`B`'s) ran. -/
theorem priceEdit_otherId_cancels_pending :
    (run stateAB [.priceEdit "A" (.fin 42), .priceEdit "B" (.fin 7),
        .firePrice, .firePrice]).cartItems.map CartItem.SalesPrice =
      [.num (.fin 10), .num (.fin 7)] ∧
    (run stateAB [.priceEdit "A" (.fin 42), .priceEdit "B" (.fin 7),
        .firePrice, .firePrice]).commitLog = [⟨.price, "B", .fin 7⟩] ∧
    (run stateAB [.priceEdit "A" (.fin 42), .priceEdit "B" (.fin 7),
        .firePrice, .firePrice]).updatePriceTimeout = none := by
  refine ⟨?_, ?_, ?_⟩ <;>
    simp [run, step, stateAB, itemA, itemB, updatePrice, firePriceTimeout,
      commitPriceItems, updateFirst, priceCommitItem]

/-- C1 amended: independence holds across the two fields but not across ids.
A price edit for any id and a margin edit for any id scheduled together both
commit (each field has its own slot), but scheduling a price (resp. margin)
edit unconditionally overwrites the pending price (resp. margin) edit of ANY
id, since the component keeps a single slot per field. -/
theorem debounce_per_field_independence :
    (∀ (s : ComponentState) (a b : String) (va vb : JsNum),
      run s [.priceEdit a va, .marginEdit b vb, .firePrice, .fireMargin] =
        { s with
            cartItems := commitMarginItems (commitPriceItems s.cartItems a va) b vb
            updatePriceTimeout := none
            updateMarginTimeout := none
            commitLog := s.commitLog ++ [⟨.price, a, va⟩, ⟨.marginField, b, vb⟩] }) ∧
    (∀ (s : ComponentState) (a b : String) (va vb : JsNum),
      updatePrice (updatePrice s a va) b vb = updatePrice s b vb ∧
      updateMargin (updateMargin s a va) b vb = updateMargin s b vb) ∧
    (∀ (s : ComponentState) (id : String) (v : JsNum),
      (updatePrice s id v).updateMarginTimeout = s.updateMarginTimeout ∧
      (updateMargin s id v).updatePriceTimeout = s.updatePriceTimeout) := by
  refine ⟨?_, ?_, ?_⟩
  · intro s a b va vb
    simp [run, step, updatePrice, updateMargin, firePriceTimeout, fireMarginTimeout]
  · intro s a b va vb
    exact ⟨rfl, rfl⟩
  · intro s id v
    exact ⟨rfl, rfl⟩

/-! ### C2 — locked-item rejection -/

/-- C2 counterexample: `updatePrice` performs no lock check.  On the item with
`readonly = true` a price edit schedules and commits exactly as on an unlocked
item: the price changes from `10` to `42` and the commit is recorded — the
claimed rejection and absence of state change do not happen. -/
theorem locked_item_price_edit_commits :
    stateLocked.cartItems.map CartItem.readonly = [true] ∧
    stateLocked.cartItems.map CartItem.SalesPrice = [.num (.fin 10)] ∧
    (run stateLocked [.priceEdit "L" (.fin 42), .firePrice]).cartItems.map
        CartItem.SalesPrice = [.num (.fin 42)] ∧
    (run stateLocked [.priceEdit "L" (.fin 42), .firePrice]).commitLog =
      [⟨.price, "L", .fin 42⟩] := by
  refine ⟨rfl, rfl, ?_, ?_⟩ <;>
    simp [run, step, stateLocked, itemLocked, updatePrice, firePriceTimeout,
      commitPriceItems, updateFirst, priceCommitItem]

/-- Helper: the price-commit body never reads or writes `readonly`. -/
theorem priceCommitItem_readonly (v : JsNum) (it : CartItem) (b : Bool) :
    priceCommitItem v { it with readonly := b } =
      { priceCommitItem v it with readonly := b } :=
  rfl

/-- Helper: flipping every item's `readonly` flag commutes with a price
commit — the commit is blind to the lock flag. -/
theorem commitPriceItems_readonly (id : String) (v : JsNum) (b : Bool) :
    ∀ items : List CartItem,
      commitPriceItems (items.map (fun it => { it with readonly := b })) id v =
        (commitPriceItems items id v).map (fun it => { it with readonly := b }) := by
  intro items
  induction items with
  | nil => rfl
  | cons x xs ih =>
    simp only [List.map_cons, commitPriceItems, updateFirst] at *
    by_cases h : x.Id = id
    · simp [h, priceCommitItem]
    · simp [h, ih]

/-- C2 amended: the engine applies a price edit to a locked item exactly as to
an unlocked one — no `Forbidden` signal exists in the code.  `updatePrice`
schedules unconditionally (it never consults any item), and the timer commit
is independent of the `readonly` flag; the flag is only computed at load from
`Agency_Pricing__c` and exposed for the rendering layer. -/
theorem updatePrice_ignores_readonly :
    (∀ (s : ComponentState) (id : String) (v : JsNum),
      updatePrice s id v = { s with updatePriceTimeout := some ⟨id, v⟩ }) ∧
    (∀ (v : JsNum) (it : CartItem) (b : Bool),
      priceCommitItem v { it with readonly := b } =
        { priceCommitItem v it with readonly := b }) ∧
    (∀ (items : List CartItem) (id : String) (v : JsNum) (b : Bool),
      commitPriceItems (items.map (fun it => { it with readonly := b })) id v =
        (commitPriceItems items id v).map (fun it => { it with readonly := b })) :=
  ⟨fun _ _ _ => rfl, priceCommitItem_readonly,
    fun items id v b => commitPriceItems_readonly id v b items⟩

/-! ### C3 — non-finite price at the 100% margin boundary -/

/-- C3: a margin edit of `100` on item `B` (cost `5`) commits
`SalesPrice = roundNum(5 / (1 - 1), 2) = Infinity` straight into state: the
code neither rejects nor clamps at the `m == 1` boundary, contradicting the
claimed policy. -/
theorem margin100_stores_posInf :
    (run stateAB [.marginEdit "B" (.fin 100), .fireMargin]).cartItems.map
        CartItem.SalesPrice = [.num (.fin 10), .num .posInf] ∧
    (run stateAB [.marginEdit "B" (.fin 100), .fireMargin]).cartItems.map
        CartItem.margin = [.fin 60, .fin 100] ∧
    JsNum.isFinite .posInf = false := by
  refine ⟨?_, ?_, rfl⟩ <;>
    norm_num [run, step, stateAB, itemA, itemB, updateMargin, fireMarginTimeout,
      commitMarginItems, updateFirst, marginCommitItem, priceFromMargin,
      roundNum, jsub, jdiv, JsVal.toNumber,
      (by decide : ¬(("A" : String) = "B"))]

/-! ### C5 — refresh does not cancel pending debounced edits -/

/-- C5: `refreshCartItems` only re-invokes the wire; the pending debounced
price edit survives the refresh, and when its timer fires it writes the
discarded value `42` into the freshly re-seeded collection — the stale commit
resurrects after refresh, contradicting the claimed cancellation. -/
theorem refresh_resurrects_pending_edit :
    (refreshCartItems (updatePrice (wiredCart initialState freshResultA) "A"
        (.fin 42)) freshResultA).updatePriceTimeout = some ⟨"A", .fin 42⟩ ∧
    (refreshCartItems (updatePrice (wiredCart initialState freshResultA) "A"
        (.fin 42)) freshResultA).cartItems.map CartItem.SalesPrice =
      [.num (.fin 10)] ∧
    (firePriceTimeout (refreshCartItems (updatePrice (wiredCart initialState
        freshResultA) "A" (.fin 42)) freshResultA)).cartItems.map
        CartItem.SalesPrice = [.num (.fin 42)] := by
  refine ⟨rfl, ?_, ?_⟩ <;>
    simp [refreshCartItems, wiredCart, initialState, freshResultA, rawItemA,
      mapCartItem, updatePrice, firePriceTimeout, commitPriceItems, updateFirst,
      priceCommitItem]

/-! ### C6 — save aggregate result and failure-path state -/

/-- Helper: `Promise.all` resolves exactly when every issued write resolves. -/
theorem firstRejection_eq_none_iff (results : List WriteResult) :
    firstRejection results = none ↔ ∀ r ∈ results, r = .resolved := by
  induction results with
  | nil => simp [firstRejection]
  | cons r rest ih =>
    cases r with
    | resolved => simp [firstRejection, ih]
    | rejected e => simp [firstRejection]

/-- C6: `saveChanges` reports success exactly when every issued write
resolves; when some write rejects, the outcome is the failure toast,
`errorMsg` carries the first rejection's `body.message` (or `message`), and
the component state is otherwise untouched — in particular `cartItems` is
exactly what it was before the save. -/
theorem saveChanges_outcome (s : ComponentState) (results : List WriteResult) :
    ((saveChanges s results).2 = SaveOutcome.success "Changes saved successfully" ↔
      ∀ r ∈ results, r = .resolved) ∧
    (∀ e : JsError, firstRejection results = some e →
      saveChanges s results =
        ({ s with errorMsg := some (errDetail e) }, .failure "Error saving changes")) ∧
    (saveChanges s results).1.cartItems = s.cartItems := by
  refine ⟨?_, ?_, ?_⟩
  · rw [← firstRejection_eq_none_iff]
    cases h : firstRejection results with
    | none => simp [saveChanges, h]
    | some e => simp [saveChanges, h]
  · intro e he
    simp [saveChanges, he]
  · cases h : firstRejection results with
    | none => simp [saveChanges, h]
    | some e => simp [saveChanges, h]

/-- Witness for `saveChanges_outcome`: one write resolves and one rejects with
`body.message = "boom"`; the result is the failure toast, `errorMsg = "boom"`,
and an unchanged collection. -/
theorem saveChanges_outcome_witness :
    saveChanges stateAB [.resolved, .rejected ⟨some "boom", "other"⟩] =
      ({ stateAB with errorMsg := some "boom" }, .failure "Error saving changes") :=
  (saveChanges_outcome stateAB [.resolved, .rejected ⟨some "boom", "other"⟩]).2.1
    ⟨some "boom", "other"⟩ rfl

/-! ### C7 — save payload shape -/

/-- C7: `saveChanges` builds exactly one write request per collection item,
and each request's `fields` object has exactly the keys `Id` and `SalesPrice`
with that item's values — never a margin or cost key. -/
theorem buildUpdates_shape (items : List CartItem) :
    (buildUpdates items).length = items.length ∧
    (∀ u ∈ buildUpdates items,
      u.map Prod.fst = ["Id", "SalesPrice"] ∧
      "margin" ∉ u.map Prod.fst ∧ "cost" ∉ u.map Prod.fst) ∧
    (∀ it ∈ items,
      buildUpdate it = [("Id", .strVal it.Id), ("SalesPrice", .numVal it.SalesPrice)]) := by
  refine ⟨by simp [buildUpdates], ?_, ?_⟩
  · intro u hu
    simp only [buildUpdates, List.mem_map] at hu
    obtain ⟨it, _, rfl⟩ := hu
    refine ⟨rfl, by simp [buildUpdate], by simp [buildUpdate]⟩
  · intro it _
    rfl

/-- Witness for `buildUpdates_shape` on the two-item collection: two requests,
each with exactly the keys `Id` and `SalesPrice`. -/
theorem buildUpdates_shape_witness :
    (buildUpdates [itemA, itemB]).length = 2 ∧
    (buildUpdate itemA).map Prod.fst = ["Id", "SalesPrice"] :=
  ⟨(buildUpdates_shape [itemA, itemB]).1,
    ((buildUpdates_shape [itemA, itemB]).2.1 (buildUpdate itemA)
      (by simp [buildUpdates])).1⟩

/-! ### C9 — fetch-error handling in the wire handler -/

/-- C9 counterexample: after a successful load, a subsequent error emission
records the error but leaves the previously loaded (nonempty) collection in
place — the claimed "empty collection" is not produced on the error branch. -/
theorem wiredCart_error_keeps_items :
    (wiredCart (wiredCart initialState freshResultA) ⟨none, some "boom"⟩).cartItems =
      (wiredCart initialState freshResultA).cartItems ∧
    (wiredCart (wiredCart initialState freshResultA) ⟨none, some "boom"⟩).cartItems.length
      = 1 ∧
    (wiredCart (wiredCart initialState freshResultA) ⟨none, some "boom"⟩).errorMsg =
      some "boom" := by
  refine ⟨rfl, ?_, rfl⟩
  simp [wiredCart, initialState, freshResultA]

/-- C9 amended: `wiredCart` is a total function of the emitted result (it can
throw on neither branch).  On the data branch it maps the items (adding
`margin` and `readonly`) and clears the recorded error; on the error branch it
records the error and leaves the collection unchanged — so the collection is
empty after an error only when nothing had been loaded, as on initial load. -/
theorem wiredCart_branches :
    (∀ (s : ComponentState) (items : List RawItem) (err : Option String),
      wiredCart s ⟨some items, err⟩ =
        { s with cartItems := items.map mapCartItem, errorMsg := none }) ∧
    (∀ (s : ComponentState) (e : String),
      wiredCart s ⟨none, some e⟩ = { s with errorMsg := some e }) ∧
    (∀ s : ComponentState, wiredCart s ⟨none, none⟩ = s) :=
  ⟨fun _ _ _ => rfl, fun _ _ => rfl, fun _ => rfl⟩
